import Mathlib

/-
Shallow embedding of the InstrumentKit instrument drivers:
  instruments/generic_hpml/hpml_multimeter.py  (HpmlMultimeter)
  instruments/hp/hp3458a.py                    (HP3458a)
  python/src/instruments/hp/hp6652a.py         (HP6652a)
Stateful interaction with the device is modelled as an explicit trace of
transport operations; Python exceptions are modelled as explicit outcome
constructors.
-/

/-- One operation observed on the instrument transport: a command write
(`sendcmd`), a query (write plus one text-line read), or a sized binary read
(`read(size, encoding)`). -/
inductive TOp
  | write (cmd : String)
  | query (cmd : String)
  | readBin (size : Int) (encoding : String)
  deriving DecidableEq

/-- A Python string object: its character content together with an object
identity tag, so that Python `is` (identity) and `==` (value equality) can be
distinguished in the embedding. -/
structure PyStr where
  val : String
  objId : Nat
  deriving DecidableEq

/-- Python `is` on string objects: object identity, not value equality. -/
def pyIs (a b : PyStr) : Bool :=
  a.objId == b.objId

/-- A Python value passed to a toggle setter: the booleans, integers and
strings are enough to model the `newval is True` test in the HP6652a setters
(`is True` holds exactly for the `True` singleton). -/
inductive PyVal
  | bool (b : Bool)
  | int (n : Int)
  | str (s : String)
  deriving DecidableEq

/-- Decimal digit-run conversion: `some` of the value when the list is a
nonempty run of ASCII digits, `none` otherwise. -/
def digitsToNat (cs : List Char) : Option Nat :=
  if cs ≠ [] ∧ cs.all Char.isDigit then
    some (cs.foldl (fun a c => a * 10 + (c.toNat - 48)) 0)
  else none

/-- Strip leading and trailing whitespace from a character list (the strip
Python `int` applies to its string argument). -/
def pyStrip (cs : List Char) : List Char :=
  ((cs.dropWhile Char.isWhitespace).reverse.dropWhile Char.isWhitespace).reverse

/-- Python `int(s)` applied to a string: strip surrounding whitespace, then an
optional sign followed by a nonempty digit run; anything else raises
ValueError, modelled as `none`. (Underscore digit grouping is not modelled; no
input in this development uses it.) -/
def pyInt (s : String) : Option Int :=
  match pyStrip s.data with
  | '+' :: cs => (digitsToNat cs).map Int.ofNat
  | '-' :: cs => (digitsToNat cs).map fun n => -(n : Int)
  | cs => (digitsToNat cs).map Int.ofNat

/-- Python `str.upper` on one character, restricted to ASCII letters (the
full Unicode case map is not needed by any claim). -/
def pyUpperChar (c : Char) : Char :=
  if 'a' ≤ c ∧ c ≤ 'z' then Char.ofNat (c.toNat - 32) else c

/-- Python `str.upper`, restricted to ASCII letters. -/
def pyUpper (s : String) : String :=
  ⟨s.data.map pyUpperChar⟩

/-- The physical units appearing in the module-level `UNITS` table of
hpml_multimeter.py (the `quantities` package is an external collaborator; only
the unit tag matters here). -/
inductive PhysUnit
  | volt | amp | ohm | hertz | second
  deriving DecidableEq

namespace HpmlMultimeter

/-- HpmlMultimeter.Mode: valid measurement modes for HP Multimeter Language. -/
inductive Mode
  | current_ac
  | current_dc
  | current_acdc
  | voltage_ac
  | voltage_dc
  | voltage_acdc
  | frequency
  | period
  | fourpt_resistance
  | resistance
  | direct_sampling_ac
  | direct_sampling_dc
  | sub_sampling_ac
  | sub_sampling_dc
  deriving DecidableEq

/-- The integer wire code of each Mode variant (the Python enum values). -/
def Mode.code : Mode → Int
  | .current_ac => 7
  | .current_dc => 6
  | .current_acdc => 8
  | .voltage_ac => 2
  | .voltage_dc => 1
  | .voltage_acdc => 3
  | .frequency => 9
  | .period => 10
  | .fourpt_resistance => 5
  | .resistance => 4
  | .direct_sampling_ac => 11
  | .direct_sampling_dc => 12
  | .sub_sampling_ac => 13
  | .sub_sampling_dc => 14

/-- Python `Mode(code)` value lookup: the variant with that code, or `none`
for the ValueError on an unknown code. -/
def Mode.fromCode : Int → Option Mode
  | 7 => some .current_ac
  | 6 => some .current_dc
  | 8 => some .current_acdc
  | 2 => some .voltage_ac
  | 1 => some .voltage_dc
  | 3 => some .voltage_acdc
  | 9 => some .frequency
  | 10 => some .period
  | 5 => some .fourpt_resistance
  | 4 => some .resistance
  | 11 => some .direct_sampling_ac
  | 12 => some .direct_sampling_dc
  | 13 => some .sub_sampling_ac
  | 14 => some .sub_sampling_dc
  | _ => none

/-- HpmlMultimeter.Format: wire encodings for returned readings. -/
inductive Format
  | ascii
  | sint
  | dint
  | sreal
  | dreal
  deriving DecidableEq

/-- The integer wire code of each Format variant (the Python enum values). -/
def Format.code : Format → Int
  | .ascii => 1
  | .sint => 2
  | .dint => 3
  | .sreal => 4
  | .dreal => 5

/-- HpmlMultimeter.ToggableMode: ON/OFF toggle settings. -/
inductive ToggableMode
  | off
  | on
  deriving DecidableEq

/-- The integer wire code of each ToggableMode variant. -/
def ToggableMode.code : ToggableMode → Int
  | .off => 0
  | .on => 1

/-- HpmlMultimeter.TriggerMode: valid trigger sources for HPML multimeters. -/
inductive TriggerMode
  | auto
  | external
  | syn
  | single
  | hold
  | level
  | line
  deriving DecidableEq

/-- The integer wire code of each TriggerMode variant. -/
def TriggerMode.code : TriggerMode → Int
  | .auto => 1
  | .external => 2
  | .syn => 5
  | .single => 3
  | .hold => 4
  | .level => 7
  | .line => 8

/-- HpmlMultimeter.InputRange: range sentinels outside of a direct value. -/
inductive InputRange
  | minimum
  | maximum
  | default
  | automatic
  deriving DecidableEq

/-- The string wire code of each InputRange variant. -/
def InputRange.code : InputRange → String
  | .minimum => "MIN"
  | .maximum => "MAX"
  | .default => "DEF"
  | .automatic => "AUTO"

/-- HpmlMultimeter._mode_parse: `int(val.split(',')[0])` — the text before the
first comma, converted by Python `int`; `none` models the ValueError raised on
a non-integer leading token. -/
def _mode_parse (val : String) : Option Int :=
  pyInt ⟨val.data.takeWhile (fun c => c ≠ ',')⟩

/-- Modelled from the spec: the read side of the `mode` enum-property built by
`enum_property` from instruments/util_fns.py, a file absent from src/. Per
spec section 4.3 the accessor issues one query, applies the configured input
decoration (`_mode_parse`) to the raw reply, and decodes the resulting code
through the `Mode` catalog (Python `Mode(code)`), failing on an unrecognized
token. This function is the decode applied to the raw reply text. -/
def modeGet (reply : String) : Option Mode :=
  (_mode_parse reply).bind Mode.fromCode

end HpmlMultimeter

/-- The module-level UNITS dict of hpml_multimeter.py: exactly eight modes
have units; every other mode is absent (`none`), so Python `UNITS[mode]`
raises KeyError there. -/
def UNITS : HpmlMultimeter.Mode → Option PhysUnit
  | .voltage_dc => some .volt
  | .voltage_ac => some .volt
  | .current_ac => some .amp
  | .current_dc => some .amp
  | .resistance => some .ohm
  | .fourpt_resistance => some .ohm
  | .frequency => some .hertz
  | .period => some .second
  | _ => none

/-- The (size, encoding) arguments of the binary transport reads occurring in
a trace, in order. -/
def readReqs (t : List TOp) : List (Int × String) :=
  t.filterMap fun op =>
    match op with
    | .readBin size enc => some (size, enc)
    | _ => none

namespace HpmlMultimeter

/-- The shapes a Python argument for the `mode` parameter of `measure` can
take: `none` is Python `None`; `mode m` is a genuine `Mode` member; `withValue
v` is any non-`Mode` object carrying a `.value` attribute equal to the integer
`v` (for example a member of a different enum such as `Format`); `noValue` is
any object with no `.value` attribute (for example a plain string or int). -/
inductive PyArg
  | none
  | mode (m : Mode)
  | withValue (v : Int)
  | noValue
  deriving DecidableEq

/-- The possible results of `measure`: a numeric reading multiplied by a unit
(`value * UNITS[mode]`), or one of the Python exceptions the body can raise —
KeyError from `UNITS[mode]`, the TypeError of the isinstance check,
AttributeError from `mode.value` on an object without that attribute, and
ValueError from decoding the device's mode reply. -/
inductive MOut
  | quantity (v : Rat) (u : PhysUnit)
  | keyError
  | typeError
  | attributeError
  | valueError
  deriving DecidableEq

/-- HpmlMultimeter.measure, as a function of the device state and argument:
`ofmt` is the device's configured output format (part of the device state; the
body never consults it — line 331 always reads 8 bytes as IEEE-754/64);
`arg` is the `mode` argument; `modeReply` is the device's reply to the mode
query issued when `mode is None`; `readVal` is the numeric reading the
transport read yields. Returns the transport trace and the outcome. Control
flow of the source: `mode is None` branches to the mode getter, otherwise
`self.mode = mode.value` runs first (AttributeError when the object has no
`.value`; otherwise the mode-property setter issues its write); only then the
isinstance check runs (TypeError for a non-Mode argument); then `trigger()`
sends `TRIG 1`, `read(size=8, encoding='IEEE-754/64')` reads the value, and
`value * UNITS[mode]` looks the unit up (KeyError when absent). The single
write issued by the enum-property setter is modelled from the spec (section
4.3: one write of the command keyword and the wire code), because
instruments/util_fns.py is not part of src/. -/
def measure (ofmt : Format) (arg : PyArg) (modeReply : String) (readVal : Rat) :
    List TOp × MOut :=
  match arg with
  | .noValue => ([], .attributeError)
  | .withValue v => ([.write ("FUNC " ++ toString v)], .typeError)
  | .mode m =>
      ([.write ("FUNC " ++ toString m.code), .write "TRIG 1",
        .readBin 8 "IEEE-754/64"],
       match UNITS m with
       | some u => .quantity readVal u
       | Option.none => .keyError)
  | .none =>
      match modeGet modeReply with
      | some m =>
          ([.query "FUNC?", .write "TRIG 1", .readBin 8 "IEEE-754/64"],
           match UNITS m with
           | some u => .quantity readVal u
           | Option.none => .keyError)
      | Option.none => ([.query "FUNC?"], .valueError)

/-- The reading rule the claim ascribes to `measure`, stated from the spec's
words for comparison with the code: the size and encoding passed to the
transport read as a function of the configured Format — ASCII as 15-byte text
parsed to float, sint/dint as 2- and 4-byte two's-complement integers,
sreal/dreal as IEEE-754 32- and 64-bit floats. -/
def claimedReadRequest : Format → Int × String
  | .ascii => (15, "utf-8")
  | .sint => (2, "int16")
  | .dint => (4, "int32")
  | .sreal => (4, "IEEE-754/32")
  | .dreal => (8, "IEEE-754/64")

/-- Outcome of a property accessor: a value, or the NotImplementedError the
base class raises for capabilities a model does not support. -/
inductive AccessOutcome (α : Type)
  | ok (v : α)
  | notImplementedError
  deriving DecidableEq

/-- HpmlMultimeter.input_range getter: the body is `raise NotImplementedError`
and no transport operation is issued. -/
def input_range_get : List TOp × AccessOutcome InputRange :=
  ([], .notImplementedError)

/-- HpmlMultimeter.input_range setter: `raise NotImplementedError`, no
transport operation. -/
def input_range_set (newval : InputRange) : List TOp × AccessOutcome Unit :=
  ([], .notImplementedError)

/-- HpmlMultimeter.relative getter: `raise NotImplementedError`, no transport
operation. -/
def relative_get : List TOp × AccessOutcome Bool :=
  ([], .notImplementedError)

/-- HpmlMultimeter.relative setter: `raise NotImplementedError`, no transport
operation. -/
def relative_set (newval : Bool) : List TOp × AccessOutcome Unit :=
  ([], .notImplementedError)

end HpmlMultimeter

namespace HP6652a

/-- The interned string literal `'1'` appearing in the source of the
`overcurrent` and `output` getters; object identity tag 0 by convention. -/
def lit1 : PyStr :=
  ⟨"1", 0⟩

/-- HP6652a.output getter: `True if self.query('OUTP?') is '1' else False` —
the reply object from the query is compared against the literal with Python
`is` (object identity), not `==`. -/
def output_get (reply : PyStr) : List TOp × Bool :=
  ([.query "OUTP?"], pyIs reply lit1)

/-- HP6652a.overcurrent getter: `True if self.query('CURR:PROT:STAT?') is '1'
else False` — identity comparison against the literal, as in `output`. -/
def overcurrent_get (reply : PyStr) : List TOp × Bool :=
  ([.query "CURR:PROT:STAT?"], pyIs reply lit1)

/-- HP6652a.output setter: `newval = 1 if newval is True else 0`, then
`sendcmd('OUTP {}'.format(newval))`. -/
def output_set (newval : PyVal) : List TOp :=
  [.write ("OUTP " ++ (if newval = PyVal.bool true then "1" else "0"))]

/-- HP6652a.overcurrent setter: `newval = 1 if newval is True else 0`, then
`sendcmd('CURR:PROT:STAT {}'.format(newval))`. -/
def overcurrent_set (newval : PyVal) : List TOp :=
  [.write ("CURR:PROT:STAT " ++ (if newval = PyVal.bool true then "1" else "0"))]

/-- HP6652a.display_text: truncate to the first 15 characters when longer than
15, uppercase, send one DISP:TEXT command quoting the transformed string, and
return the transformed string. -/
def display_text (text_to_display : String) : List TOp × String :=
  let t :=
    if text_to_display.length > 15 then ⟨text_to_display.data.take 15⟩
    else text_to_display
  let t := pyUpper t
  ([TOp.write ("DISP:TEXT \"" ++ t ++ "\"")], t)

end HP6652a

namespace HP3458a

/-- Modelled from the spec: the write side of an enum-backed property built by
`enum_property` from instruments/util_fns.py, a file absent from src/. Per
spec section 4.3 an enum-property assignment issues exactly one transport
write carrying the command keyword and the variant's wire code. -/
def enumSet (cmd : String) (code : Int) : TOp :=
  TOp.write (cmd ++ " " ++ toString code)

/-- HP3458a.__init__ after the base constructor: the six enum-property
assignments in source order (`tarm_mode = hold`, `mformat = dreal`,
`oformat = dreal`, `display = off`, `azero = off`, `tarm_mode = syn`),
followed by the line-terminator assignment `self.terminator = '\r'` (a
transport configuration attribute, not a wire command — the spec's
configuration surface, section 6). -/
def init_sequence : List TOp × Char :=
  ([enumSet "TARM" HpmlMultimeter.TriggerMode.hold.code,
    enumSet "MFORMAT" HpmlMultimeter.Format.dreal.code,
    enumSet "OFORMAT" HpmlMultimeter.Format.dreal.code,
    enumSet "DISP" HpmlMultimeter.ToggableMode.off.code,
    enumSet "AZERO" HpmlMultimeter.ToggableMode.off.code,
    enumSet "TARM" HpmlMultimeter.TriggerMode.syn.code],
   '\r')

end HP3458a

/- Theorems settling the claims. -/

/-- Claim C1, evaluated at the failing inputs. Calling `measure` with a mode
object that has no `value` attribute (for example the string "foo") raises
AttributeError — not the typed mode-validation TypeError that the spec calls
InvalidModeError — and calling it with a non-Mode object that does carry a
`value` (for example `Format.ascii`, whose value is 1) first issues the
mode-set write `FUNC 1` and only then raises the TypeError: the rejection is
not fail-fast with zero transport writes. -/
theorem measure_invalid_mode_not_fail_fast :
    HpmlMultimeter.measure HpmlMultimeter.Format.dreal HpmlMultimeter.PyArg.noValue "1" 0
      = ([], HpmlMultimeter.MOut.attributeError)
    ∧ HpmlMultimeter.measure HpmlMultimeter.Format.dreal (HpmlMultimeter.PyArg.withValue 1) "1" 0
      = ([TOp.write "FUNC 1"], HpmlMultimeter.MOut.typeError) := by
  exact ⟨rfl, by decide⟩

/-- Claim C2, evaluated at the failing input. For `direct_sampling_ac`, a mode
absent from the UNITS table, `measure` issues the mode-set write, the trigger
and the 8-byte read, and then raises KeyError at `value * UNITS[mode]` instead
of returning the bare numeric value its docstring promises. -/
theorem measure_missing_unit_raises_keyerror :
    HpmlMultimeter.measure HpmlMultimeter.Format.dreal
        (HpmlMultimeter.PyArg.mode HpmlMultimeter.Mode.direct_sampling_ac) "1" 0
      = ([TOp.write "FUNC 11", TOp.write "TRIG 1", TOp.readBin 8 "IEEE-754/64"],
         HpmlMultimeter.MOut.keyError) := by
  decide

/-- Claim C3, counterexample. With the configured output format `sint`, the
read request `measure` issues is not the format-dependent request the claim
describes (2-byte two's-complement): it is the constant 8-byte IEEE-754/64
request. -/
theorem measure_read_request_cex :
    readReqs (HpmlMultimeter.measure HpmlMultimeter.Format.sint
        (HpmlMultimeter.PyArg.mode HpmlMultimeter.Mode.voltage_dc) "1" 0).fst
      ≠ [HpmlMultimeter.claimedReadRequest HpmlMultimeter.Format.sint] := by
  decide

/-- Claim C3, amended: every binary read `measure` performs uses the constant
size 8 and encoding IEEE-754/64, for every configured output format, every
argument shape, every device reply and every reading — the request is a
constant, not a function of the configured Format. -/
theorem measure_read_request_constant :
    ∀ (ofmt : HpmlMultimeter.Format) (arg : HpmlMultimeter.PyArg)
      (r : String) (v : Rat),
      readReqs (HpmlMultimeter.measure ofmt arg r v).fst = []
      ∨ readReqs (HpmlMultimeter.measure ofmt arg r v).fst = [(8, "IEEE-754/64")] := by
  intro ofmt arg r v
  cases arg with
  | noValue => exact Or.inl rfl
  | withValue w => exact Or.inl rfl
  | mode m => exact Or.inr rfl
  | none =>
    cases h : HpmlMultimeter.modeGet r with
    | none =>
      exact Or.inl (by simp [HpmlMultimeter.measure, h, readReqs])
    | some m =>
      exact Or.inr (by simp [HpmlMultimeter.measure, h, readReqs])

/-- Claim C4, evaluated at the failing input. The setter half of the claim
holds: boolean True emits the wire value "1" and False emits "0". The getter
half fails on the code: the getters compare the reply to the literal with
Python `is` (object identity), so a reply whose content equals "1" but which
is a distinct string object yields False, not True. -/
theorem toggle_getter_identity_false_negative :
    (⟨"1", 1⟩ : PyStr).val = "1"
    ∧ (HP6652a.output_get ⟨"1", 1⟩).snd = false
    ∧ (HP6652a.overcurrent_get ⟨"1", 1⟩).snd = false
    ∧ HP6652a.output_set (PyVal.bool true) = [TOp.write "OUTP 1"]
    ∧ HP6652a.output_set (PyVal.bool false) = [TOp.write "OUTP 0"]
    ∧ HP6652a.overcurrent_set (PyVal.bool true) = [TOp.write "CURR:PROT:STAT 1"]
    ∧ HP6652a.overcurrent_set (PyVal.bool false) = [TOp.write "CURR:PROT:STAT 0"] := by
  decide

/-- Claim C5, counterexample. A compound reply whose leading token is the
string code "AUTO" does not decode through any string-coded catalog: the
`int` conversion inside `_mode_parse` fails (ValueError), so mode decoding
fails. -/
theorem mode_parse_string_token_cex :
    HpmlMultimeter._mode_parse "AUTO, 1.0E-4" = none
    ∧ HpmlMultimeter.modeGet "AUTO, 1.0E-4" = none := by
  decide

/-- Claim C5, amended: mode decoding splits the compound reply on the first
comma and decodes only the leading token as an integer code — "6, 1.0E-4"
parses to 6 and yields the current-DC variant — but a reply whose leading
token is a string code such as "AUTO" raises ValueError in the `int`
conversion rather than decoding through a string-coded catalog. -/
theorem mode_parse_leading_token :
    HpmlMultimeter._mode_parse "6, 1.0E-4" = some 6
    ∧ HpmlMultimeter.modeGet "6, 1.0E-4" = some HpmlMultimeter.Mode.current_dc
    ∧ HpmlMultimeter.modeGet "AUTO, 1.0" = none := by
  decide

/-- Claim C6: for each of the eight Mode variants present in the UNITS table,
`measure` returns the reading as a quantity carrying exactly the unit the
table assigns — volt for the voltage modes, amp for the current modes, ohm for
the resistance modes, hertz for frequency and second for period — for every
configured format, device reply and numeric reading. -/
theorem measure_unit_table_units :
    ∀ (ofmt : HpmlMultimeter.Format) (r : String) (v : Rat),
      (HpmlMultimeter.measure ofmt (.mode .voltage_dc) r v).snd
          = HpmlMultimeter.MOut.quantity v PhysUnit.volt
      ∧ (HpmlMultimeter.measure ofmt (.mode .voltage_ac) r v).snd
          = HpmlMultimeter.MOut.quantity v PhysUnit.volt
      ∧ (HpmlMultimeter.measure ofmt (.mode .current_ac) r v).snd
          = HpmlMultimeter.MOut.quantity v PhysUnit.amp
      ∧ (HpmlMultimeter.measure ofmt (.mode .current_dc) r v).snd
          = HpmlMultimeter.MOut.quantity v PhysUnit.amp
      ∧ (HpmlMultimeter.measure ofmt (.mode .resistance) r v).snd
          = HpmlMultimeter.MOut.quantity v PhysUnit.ohm
      ∧ (HpmlMultimeter.measure ofmt (.mode .fourpt_resistance) r v).snd
          = HpmlMultimeter.MOut.quantity v PhysUnit.ohm
      ∧ (HpmlMultimeter.measure ofmt (.mode .frequency) r v).snd
          = HpmlMultimeter.MOut.quantity v PhysUnit.hertz
      ∧ (HpmlMultimeter.measure ofmt (.mode .period) r v).snd
          = HpmlMultimeter.MOut.quantity v PhysUnit.second := by
  intro ofmt r v
  exact ⟨rfl, rfl, rfl, rfl, rfl, rfl, rfl, rfl⟩

/-- Uppercasing does not change the character count. -/
theorem pyUpper_length (s : String) : (pyUpper s).length = s.length := by
  show (s.data.map pyUpperChar).length = s.data.length
  exact s.data.length_map pyUpperChar

/-- Claim C7: for every input string, `display_text` returns the uppercased
first-15-characters truncation of the input, sends exactly one DISP:TEXT
command quoting exactly that transformed string, and the returned string never
exceeds 15 characters. -/
theorem display_text_truncates_uppercases_and_echoes :
    ∀ t : String,
      (HP6652a.display_text t).snd = pyUpper ⟨t.data.take 15⟩
      ∧ (HP6652a.display_text t).fst
          = [TOp.write ("DISP:TEXT \"" ++ (HP6652a.display_text t).snd ++ "\"")]
      ∧ (HP6652a.display_text t).snd.length ≤ 15 := by
  intro t
  have hsnd : (HP6652a.display_text t).snd = pyUpper ⟨t.data.take 15⟩ := by
    by_cases h : t.length > 15
    · simp [HP6652a.display_text, h]
    · have hle : t.data.length ≤ 15 := Nat.le_of_not_lt h
      simp [HP6652a.display_text, h, List.take_of_length_le hle]
  refine ⟨hsnd, rfl, ?_⟩
  rw [hsnd, pyUpper_length]
  show (t.data.take 15).length ≤ 15
  rw [List.length_take]
  exact min_le_left _ _

/-- Claim C8: the HP3458a constructor issues its configuration writes in
exactly the documented order — trigger-arm hold (TARM 4), memory format dreal
(MFORMAT 5), output format dreal (OFORMAT 5), display off (DISP 0), autozero
off (AZERO 0), trigger-arm synchronous (TARM 5) — and then sets the line
terminator to carriage return. -/
theorem hp3458a_init_order :
    HP3458a.init_sequence
      = ([TOp.write "TARM 4", TOp.write "MFORMAT 5", TOp.write "OFORMAT 5",
          TOp.write "DISP 0", TOp.write "AZERO 0", TOp.write "TARM 5"],
         '\r') := by
  decide

/-- Claim C9: reading or writing the base-class `input_range` property and
reading or writing `relative` always yields the NotImplementedError marker and
issues zero transport operations — the accessors never silently succeed. -/
theorem base_capability_markers_raise :
    HpmlMultimeter.input_range_get
        = ([], HpmlMultimeter.AccessOutcome.notImplementedError)
    ∧ (∀ v, HpmlMultimeter.input_range_set v
        = ([], HpmlMultimeter.AccessOutcome.notImplementedError))
    ∧ HpmlMultimeter.relative_get
        = ([], HpmlMultimeter.AccessOutcome.notImplementedError)
    ∧ (∀ b, HpmlMultimeter.relative_set b
        = ([], HpmlMultimeter.AccessOutcome.notImplementedError)) := by
  exact ⟨rfl, fun v => rfl, rfl, fun b => rfl⟩

/-- Claim C10: the HP6652a `output` and `overcurrent` setters emit the wire
value "1" exactly when the argument is the boolean True singleton (Python
`newval is True`); every other value — the boolean False, truthy non-booleans
such as the integer 1 or a non-empty string — makes them emit "0". -/
theorem toggle_setter_exact_true_identity :
    (∀ v : PyVal,
      (HP6652a.output_set v = [TOp.write "OUTP 1"] ↔ v = PyVal.bool true)
      ∧ (HP6652a.output_set v = [TOp.write "OUTP 1"]
          ∨ HP6652a.output_set v = [TOp.write "OUTP 0"])
      ∧ (HP6652a.overcurrent_set v = [TOp.write "CURR:PROT:STAT 1"]
          ↔ v = PyVal.bool true)
      ∧ (HP6652a.overcurrent_set v = [TOp.write "CURR:PROT:STAT 1"]
          ∨ HP6652a.overcurrent_set v = [TOp.write "CURR:PROT:STAT 0"]))
    ∧ HP6652a.output_set (PyVal.int 1) = [TOp.write "OUTP 0"]
    ∧ HP6652a.output_set (PyVal.str "ON") = [TOp.write "OUTP 0"]
    ∧ HP6652a.overcurrent_set (PyVal.int 1) = [TOp.write "CURR:PROT:STAT 0"] := by
  refine ⟨fun v => ?_, by decide, by decide, by decide⟩
  by_cases h : v = PyVal.bool true
  · subst h
    exact ⟨by decide, Or.inl (by decide), by decide, Or.inl (by decide)⟩
  · have h1 : HP6652a.output_set v = [TOp.write "OUTP 0"] := by
      unfold HP6652a.output_set
      rw [if_neg h]
      decide
    have h2 : HP6652a.overcurrent_set v = [TOp.write "CURR:PROT:STAT 0"] := by
      unfold HP6652a.overcurrent_set
      rw [if_neg h]
      decide
    refine ⟨⟨fun hw => ?_, fun hv => absurd hv h⟩, Or.inr h1,
            ⟨fun hw => ?_, fun hv => absurd hv h⟩, Or.inr h2⟩
    · rw [h1] at hw
      exact absurd hw (by decide)
    · rw [h2] at hw
      exact absurd hw (by decide)
